import Mathlib

/-!
Verification of the Change Significance Engine of the
google-ads-policy-monitor repository (src/src/analysis/changeDetector.js,
with the snapshot hash from src/src/crawlers/googlePolicyDiscovery.js).

The JavaScript code is shallowly embedded: strings become `List Char`,
JS numbers become `ℚ`, JS `null`/missing values become `Option`, and a
thrown `TypeError` becomes `Except.error`.  The regular-expression
replacements of the source are executed by a small backtracking matcher
(`mrun`) that follows JavaScript semantics: leftmost match, greedy `*`
tries longest first, lazy `*?` tries shortest first, alternation prefers
the left branch, and literals with the `i` flag compare case-insensitively.
-/

namespace PolicyMonitor

/-- JS `\s` for the ASCII range plus NBSP (the inputs considered are ASCII):
space, tab, line feed, carriage return, vertical tab, form feed, NBSP. -/
def isWs (c : Char) : Bool :=
  c.toNat = 32 || c.toNat = 9 || c.toNat = 10 || c.toNat = 13 ||
  c.toNat = 11 || c.toNat = 12 || c.toNat = 160

/-- JS `\w`: ASCII letters, digits and underscore. -/
def isWordChar (c : Char) : Bool :=
  c.isAlpha || c.isDigit || c = '_'

/-- ASCII lower-casing, the fragment of JS `toLowerCase` our inputs exercise. -/
def lowerChar (c : Char) : Char :=
  if 65 ≤ c.toNat ∧ c.toNat ≤ 90 then Char.ofNat (c.toNat + 32) else c

/-- `String.prototype.toLowerCase`. -/
def jsToLowerL (s : List Char) : List Char := s.map lowerChar

/-- `String.prototype.trim`. -/
def jsTrimL (s : List Char) : List Char :=
  (((s.dropWhile isWs).reverse).dropWhile isWs).reverse

/-- Substring test, JS `String.prototype.includes`. -/
def isSubstr (pat : List Char) : List Char → Bool
  | [] => pat.isEmpty
  | c :: t => pat.isPrefixOf (c :: t) || isSubstr pat t

/-- Regular expressions, the fragment used by the detector's patterns. -/
inductive Rx where
  | eps : Rx
  | cls : (Char → Bool) → Rx
  | lit : List Char → Rx
  | seq : Rx → Rx → Rx
  | alt : Rx → Rx → Rx
  | starG : Rx → Rx
  | starL : Rx → Rx
  | optG : Rx → Rx
  | eos : Rx
  | eol : Rx
  | lookWsEnd : Rx

/-- Case-insensitive literal matching (the source's literal patterns all
carry the `i` flag, and case never matters for its class-only patterns). -/
def litMatch : List Char → List Char → Option (List Char)
  | [], s => some s
  | _ :: _, [] => none
  | p :: ps, c :: cs =>
    if lowerChar p = lowerChar c then litMatch ps cs else none

/-- Backtracking matcher with continuation `k`; returns the input remainder
after the whole match in JS preference order.  `fuel` bounds the recursion
depth and is chosen large enough at every call site. -/
def mrun : Nat → Rx → List Char → (List Char → Option (List Char)) →
    Option (List Char)
  | 0, _, _, _ => none
  | fuel + 1, r, s, k =>
    match r with
    | .eps => k s
    | .cls p =>
      match s with
      | [] => none
      | c :: t => if p c then k t else none
    | .lit l =>
      match litMatch l s with
      | some t => k t
      | none => none
    | .seq a b => mrun fuel a s (fun s1 => mrun fuel b s1 k)
    | .alt a b =>
      match mrun fuel a s k with
      | some res => some res
      | none => mrun fuel b s k
    | .optG a =>
      match mrun fuel a s k with
      | some res => some res
      | none => k s
    | .starG a =>
      match mrun fuel a s (fun s1 =>
          if s1.length = s.length then none else mrun fuel (.starG a) s1 k) with
      | some res => some res
      | none => k s
    | .starL a =>
      match k s with
      | some res => some res
      | none =>
        mrun fuel a s (fun s1 =>
          if s1.length = s.length then none else mrun fuel (.starL a) s1 k)
    | .eos => if s.isEmpty then k s else none
    | .eol =>
      match s with
      | [] => k s
      | c :: _ =>
        if c = '\n' || c = '\r' || c = Char.ofNat 8232 || c = Char.ofNat 8233
        then k s else none
    | .lookWsEnd =>
      match s with
      | [] => k s
      | c :: _ => if isWs c then k s else none

/-- Try to match `r` at the start of `s`; returns the remainder on success. -/
def tryMatch (r : Rx) (s : List Char) : Option (List Char) :=
  mrun ((s.length + 4) * 160 + 400) r s some

/-- One global-replace pass, JS `String.prototype.replace` with the `g` flag:
scan left to right, replace each leftmost match, continue after it. -/
def replaceGo : Nat → Rx → List Char → List Char → List Char
  | 0, _, _, _ => []
  | fuel + 1, r, repl, s =>
    match s with
    | [] => []
    | c :: t =>
      match tryMatch r s with
      | some rest =>
        if rest.length = s.length then
          repl ++ c :: replaceGo fuel r repl t
        else
          repl ++ replaceGo fuel r repl rest
      | none => c :: replaceGo fuel r repl t

/-- JS `s.replace(rx, repl)` with the `g` flag. -/
def jsReplaceL (r : Rx) (repl : List Char) (s : List Char) : List Char :=
  replaceGo (s.length + 1) r repl s

/-- Helper of `jsSplitRuns`: `inSep` records that the previous character
belonged to the separator run being skipped. -/
def splitRunsAux (p : Char → Bool) : Bool → List Char → List Char →
    List (List Char)
  | _, acc, [] => [acc.reverse]
  | inSep, acc, c :: t =>
    if p c then
      if inSep then splitRunsAux p true [] t
      else acc.reverse :: splitRunsAux p true [] t
    else splitRunsAux p false (c :: acc) t

/-- JS `s.split(rx)` for a regex matching one-or-more separator characters:
segments between maximal separator runs, keeping empty edge segments. -/
def jsSplitRuns (p : Char → Bool) (acc : List Char) (s : List Char) :
    List (List Char) :=
  splitRunsAux p false acc s

/-- Tokens of length strictly greater than `minLen`, JS
`text.split(QuoteWsRunQuote).filter(w.length greater than minLen)`. -/
def wordsFilter (minLen : Nat) (s : List Char) : List (List Char) :=
  (jsSplitRuns isWs [] s).filter (fun w => minLen < w.length)

/-- Sequencing a list of regexes. -/
def seqs (rs : List Rx) : Rx := rs.foldr Rx.seq Rx.eps

/-- `[\s\S]` : any character. -/
def anyCh : Rx := Rx.cls (fun _ => true)

/-- `[\s\S]*?` : lazy any-run. -/
def lazyAny : Rx := Rx.starL anyCh

/-- `\s*`. -/
def wsStar : Rx := Rx.starG (Rx.cls isWs)

/-- `\s+`. -/
def wsPlus : Rx := Rx.seq (Rx.cls isWs) wsStar

/-- `\d`. -/
def rxD : Rx := Rx.cls Char.isDigit

/-- `\d{1,2}` (greedy). -/
def rxD12 : Rx := Rx.seq rxD (Rx.optG rxD)

/-- `\d{4}`. -/
def rxD4 : Rx := seqs [rxD, rxD, rxD, rxD]

/-- `X[\s\S]*?Y` : bounded lazy removal between two literals. -/
def between (a b : List Char) : Rx := seqs [Rx.lit a, lazyAny, Rx.lit b]

/-- `X[\s\S]*?$` without the `m` flag: from a literal to the end of input. -/
def toEnd (a : List Char) : Rx := seqs [Rx.lit a, lazyAny, Rx.eos]

/-- The apostrophe character (U+0027). -/
def apos : Char := Char.ofNat 39

/-- Literal of the pattern `Tell us more and we'll help you get there`. -/
def tellUsMoreLit : List Char :=
  "Tell us more and we".data ++ [apos] ++ "ll help you get there".data

/-- `(?:Home|Help)\s*>\s*[\w\s>]*(?:policies?|requirements?|specifications?)`
(note the `>` inside the greedy class, which lets the pattern swallow
multi-level breadcrumbs). -/
def homeHelpRx : Rx :=
  seqs [Rx.alt (Rx.lit "Home".data) (Rx.lit "Help".data),
        wsStar, Rx.lit ">".data, wsStar,
        Rx.starG (Rx.cls (fun c => isWordChar c || isWs c || c = '>')),
        Rx.alt (Rx.seq (Rx.lit "policie".data) (Rx.optG (Rx.lit "s".data)))
          (Rx.alt (Rx.seq (Rx.lit "requirement".data) (Rx.optG (Rx.lit "s".data)))
            (Rx.seq (Rx.lit "specification".data) (Rx.optG (Rx.lit "s".data))))]

/-- `[\w\s]*>\s*[\w\s]*>\s*[\w\s]*>\s*[\w\s]*`. -/
def breadcrumb3Rx : Rx :=
  seqs [Rx.starG (Rx.cls (fun c => isWordChar c || isWs c)), Rx.lit ">".data,
        wsStar, Rx.starG (Rx.cls (fun c => isWordChar c || isWs c)), Rx.lit ">".data,
        wsStar, Rx.starG (Rx.cls (fun c => isWordChar c || isWs c)), Rx.lit ">".data,
        wsStar, Rx.starG (Rx.cls (fun c => isWordChar c || isWs c))]

/-- Timestamp pattern
`\d{1,2}\/\d{1,2}\/\d{4}[\s,]*\d{1,2}:\d{2}(:\d{2})?(\s*(AM|PM))?`. -/
def timestampRx : Rx :=
  seqs [rxD12, Rx.lit "/".data, rxD12, Rx.lit "/".data, rxD4,
        Rx.starG (Rx.cls (fun c => isWs c || c = ',')),
        rxD12, Rx.lit ":".data, rxD, rxD,
        Rx.optG (seqs [Rx.lit ":".data, rxD, rxD]),
        Rx.optG (Rx.seq wsStar (Rx.alt (Rx.lit "AM".data) (Rx.lit "PM".data)))]

/-- `visit_id=[^&\s]+`. -/
def visitIdRx : Rx :=
  seqs [Rx.lit "visit_id=".data,
        Rx.cls (fun c => !(c = '&' || isWs c)),
        Rx.starG (Rx.cls (fun c => !(c = '&' || isWs c)))]

/-- `Note:\s*Starting\s+(?:on\s+)?\w+\s+\d{1,2},?\s+\d{4}`. -/
def noteStartingRx : Rx :=
  seqs [Rx.lit "Note:".data, wsStar, Rx.lit "Starting".data, wsPlus,
        Rx.optG (Rx.seq (Rx.lit "on".data) wsPlus),
        Rx.cls isWordChar, Rx.starG (Rx.cls isWordChar), wsPlus,
        rxD12, Rx.optG (Rx.lit ",".data), wsPlus, rxD4]

/-- `Schema\.org property:[\s\S]*?$` with the `m` flag (line-end dollar). -/
def schemaOrgRx : Rx :=
  seqs [Rx.lit "Schema.org property:".data, lazyAny, Rx.eol]

/-- The ordered removal steps of `normalizePolicyContent` that follow the
initial whitespace collapse (each pair is pattern and replacement). -/
def normSteps : List (Rx × List Char) :=
  [(between "Help Get to know Merchant Center".data "Merchant Center Next".data, []),
   (between "Business settings Upload your products".data
      "Troubleshoot 3rd party platform integrations".data, []),
   (between "Upload your products".data "Product data specifications".data, []),
   (between "Add products Maintain your product data".data
      "Product data specifications".data, []),
   (between "Get to know Merchant Center".data "Glossary".data, []),
   (between "Policies and requirements".data "Local inventory ads".data, []),
   (homeHelpRx, []),
   (breadcrumb3Rx, []),
   (Rx.seq (Rx.lit "Skip to main content".data) wsStar, []),
   (toEnd "Give feedback about this article".data, []),
   (toEnd "Choose a section to give fee".data, []),
   (between "For subtitles in your language".data "choose your language.".data, []),
   (between "Learn more about the commonly used policy terms".data "glossary.".data, []),
   (between "Select the settings icon".data "choose your language.".data, []),
   (toEnd "Was this helpful?".data, []),
   (toEnd "Need more help?".data, []),
   (toEnd "Post to the Help Community".data, []),
   (toEnd "Contact us".data, []),
   (toEnd tellUsMoreLit, []),
   (timestampRx, []),
   (visitIdRx, []),
   (noteStartingRx, "Note: Starting [DATE]".data),
   (between "Available for".data "only)".data, []),
   (schemaOrgRx, [])]

/-- The whitespace-collapse first step, `.replace(ws-run, single-space)`. -/
def collapseWs (s : List Char) : List Char := jsReplaceL wsPlus [' '] s

/-- All removal steps of the normalizer, applied in source order. -/
def normRemovals (s : List Char) : List Char :=
  normSteps.foldl (fun acc pr => jsReplaceL pr.1 pr.2 acc) s

/-- `normalizePolicyContent` from `calculateSemanticDifference`. -/
def normalizePolicyContent (content : List Char) : List Char :=
  jsToLowerL (jsTrimL (normRemovals (collapseWs content)))

/-- `[^.!?]`. -/
def notPunct : Rx := Rx.cls (fun c => !(c = '.' || c = '!' || c = '?'))

/-- `[^.!?]*?`. -/
def lazyNP : Rx := Rx.starL (Rx.cls (fun c => !(c = '.' || c = '!' || c = '?')))

/-- The ordered removal steps of `extractPolicyCore` inside
`isOnlyStructuralChange` (before its whitespace collapse). -/
def coreSteps : List (Rx × List Char) :=
  [(seqs [lazyNP, Rx.lit ">".data, wsStar, lazyNP, Rx.lit ">".data, wsStar,
          lazyNP, Rx.lookWsEnd], []),
   (seqs [Rx.lit ">".data, wsStar, lazyNP, Rx.lit ">".data, wsStar,
          lazyNP, Rx.lookWsEnd], []),
   (seqs [Rx.lit ">".data, wsStar, lazyNP, Rx.lookWsEnd], []),
   (seqs [Rx.lit "Help".data, lazyAny,
          Rx.alt (Rx.lit "Center".data) (Rx.lit "Merchant".data)], []),
   (seqs [Rx.lit "Get to know".data, lazyAny,
          Rx.alt (Rx.lit "Center".data) (Rx.lit "Merchant".data)], []),
   (seqs [Rx.lit "Business settings".data, lazyAny,
          Rx.alt (Rx.lit "integrations".data) (Rx.lit "products".data)], []),
   (seqs [Rx.lit "Upload your products".data, lazyAny,
          Rx.alt (Rx.lit "spec".data) (Rx.lit "data".data)], []),
   (Rx.lit "Skip to main content".data, []),
   (between "Give feedback".data "article".data, []),
   (Rx.lit "Was this helpful?".data, []),
   (Rx.lit "Need more help?".data, []),
   (Rx.lit "Post to the Help Community".data, []),
   (Rx.lit "Get answers from community members".data, []),
   (Rx.lit "Contact us".data, []),
   (between "Tell us more".data "there".data, [])]

/-- `extractPolicyCore` from `isOnlyStructuralChange`. -/
def extractPolicyCore (content : List Char) : List Char :=
  jsToLowerL (jsTrimL (collapseWs
    (coreSteps.foldl (fun acc pr => jsReplaceL pr.1 pr.2 acc) content)))

/-- Sentence separators, the class `[.!?]`. -/
def isSentSep (c : Char) : Bool := c = '.' || c = '!' || c = '?'

/-- The deduplicated core word list of one side of `isOnlyStructuralChange`
(tokens of the stripped core longer than 2 characters, as a JS `Set`). -/
def coreWords (content : List Char) : List (List Char) :=
  (wordsFilter 2 (extractPolicyCore content)).dedup

/-- `ChangeDetector.isOnlyStructuralChange`. -/
def isOnlyStructuralChange (previousContent currentContent : List Char) : Bool :=
  let prevWords := coreWords previousContent
  let currWords := coreWords currentContent
  let inter := (prevWords.filter (fun w => w ∈ currWords)).length
  let union := ((prevWords ++ currWords).dedup).length
  let similarity : ℚ := if 0 < union then mkRat inter union else 0
  decide (mkRat 85 100 < similarity)

/-- The deduplicated word set of `sentenceSimilarity` (lower-cased tokens
longer than 3 characters). -/
def simWords (s : List Char) : List (List Char) :=
  (wordsFilter 3 (jsToLowerL s)).dedup

/-- `ChangeDetector.sentenceSimilarity`: unigram Jaccard over words longer
than 3 characters. -/
def sentenceSimilarity (s1 s2 : List Char) : ℚ :=
  let w1 := simWords s1
  let w2 := simWords s2
  let inter := (w1.filter (fun w => w ∈ w2)).length
  let union := ((w1 ++ w2).dedup).length
  if 0 < union then mkRat inter union else 0

/-- `ChangeDetector.calculateWordDifference`: added plus removed distinct
words longer than 3 characters. -/
def calculateWordDifference (t1 t2 : List Char) : Nat :=
  let w1 := (wordsFilter 3 t1).dedup
  let w2 := (wordsFilter 3 t2).dedup
  (w2.filter (fun w => !(w ∈ w1 : Bool))).length +
    (w1.filter (fun w => !(w ∈ w2 : Bool))).length

/-- The policy-domain vocabulary of `calculatePolicySpecificDifference`. -/
def policyKeywords : List (List Char) :=
  ["required", "prohibited", "allowed", "must", "cannot", "shall", "will",
   "policy", "rule", "regulation", "compliance", "violation", "restriction",
   "requirement", "guideline", "standard", "criteria", "condition",
   "effective", "starting", "ending", "deadline", "date",
   "country", "region", "location", "territory",
   "advertiser", "merchant", "seller", "buyer", "customer",
   "product", "service", "content", "ad", "listing",
   "approve", "disapprove", "reject", "accept", "review",
   "fee", "cost", "price", "payment", "charge",
   "age", "adult", "minor", "child", "restriction"].map String.data

/-- `extractPolicyRelevantContent`: sentences longer than 20 characters
(after trim) that contain at least one policy keyword. -/
def extractPolicyRelevantContent (text : List Char) : List (List Char) :=
  ((jsSplitRuns isSentSep [] text).filter
      (fun s => 20 < (jsTrimL s).length)).filter
    (fun s => policyKeywords.any (fun k => isSubstr k (jsToLowerL s)))

/-- `ChangeDetector.calculatePolicySpecificDifference`: count of added plus
removed policy-relevant sentences at the 0.7 similarity threshold. -/
def calculatePolicySpecificDifference (t1 t2 : List Char) : Nat :=
  let prevC := extractPolicyRelevantContent t1
  let currC := extractPolicyRelevantContent t2
  let added := currC.filter
    (fun s => !(prevC.any (fun p => decide (mkRat 7 10 < sentenceSimilarity s p))))
  let removed := prevC.filter
    (fun s => !(currC.any (fun c => decide (mkRat 7 10 < sentenceSimilarity s c))))
  added.length + removed.length

/-- The critical vocabulary of `containsCriticalPolicyChanges`. -/
def criticalTerms : List (List Char) :=
  (["prohibited", "banned", "restricted", "violation", "penalty",
    "required", "mandatory", "must comply", "shall comply",
    "effective immediately", "deadline", "expires", "terminated",
    "starting", "beginning", "effective", "ending", "until",
    "january", "february", "march", "april", "may", "june",
    "july", "august", "september", "october", "november", "december",
    "2024", "2025", "2026", "2027",
    "new requirement", "updated requirement", "changed requirement",
    "no longer", "will not", "cannot", "must not",
    "approval required", "certification required", "license required",
    "all countries", "specific countries", "region", "territory",
    "united states", "european union", "australia", "canada",
    "fee", "cost", "charge", "payment", "price",
    "age restriction", "adult content", "minor", "child",
    "gambling", "healthcare", "pharmaceutical", "medical"].map String.data)

/-- `ChangeDetector.containsCriticalPolicyChanges`: true when a changed
sentence (no counterpart at the 0.8 threshold) contains a critical term. -/
def containsCriticalPolicyChanges (previousContent currentContent : List Char) :
    Bool :=
  let prevS := jsSplitRuns isSentSep [] (jsToLowerL previousContent)
  let currS := jsSplitRuns isSentSep [] (jsToLowerL currentContent)
  let newS := currS.filter (fun s =>
    20 < (jsTrimL s).length &&
    !(prevS.any (fun p => decide (mkRat 8 10 < sentenceSimilarity s p))))
  let removedS := prevS.filter (fun s =>
    20 < (jsTrimL s).length &&
    !(currS.any (fun c => decide (mkRat 8 10 < sentenceSimilarity s c))))
  (newS ++ removedS).any (fun s => criticalTerms.any (fun t => isSubstr t s))

/-- The record returned by `calculateSemanticDifference`; fields that a JS
branch leaves `undefined` are `none`. -/
structure SemanticDiff where
  significantChanges : ℚ
  isIdentical : Bool
  isStructuralOnly : Bool
  lengthDiff : Option ℚ
  wordDiff : Option Nat
  policyWordDiff : Option Nat
  deriving Repr, DecidableEq

/-- `ChangeDetector.calculateSemanticDifference`. -/
def calculateSemanticDifference (previousContent currentContent : List Char) :
    SemanticDiff :=
  let np := normalizePolicyContent previousContent
  let nc := normalizePolicyContent currentContent
  if np = nc then
    ⟨0, true, false, none, none, none⟩
  else if isOnlyStructuralChange previousContent currentContent then
    ⟨0, false, true, none, none, none⟩
  else
    let lengthDiff : Nat := Int.natAbs ((nc.length : ℤ) - (np.length : ℤ))
    let wordDiff := calculateWordDifference np nc
    let policyWordDiff := calculatePolicySpecificDifference np nc
    ⟨max (mkRat lengthDiff 20) (policyWordDiff : ℚ), false, false,
      some (lengthDiff : ℚ), some wordDiff, some policyWordDiff⟩

/-- `semanticDiff.policyWordDiff || semanticDiff.significantChanges`: JS
falsy fallback (`undefined` and `0` both fall through). -/
def policyChangesOf (sd : SemanticDiff) : ℚ :=
  match sd.policyWordDiff with
  | some n => if n = 0 then sd.significantChanges else (n : ℚ)
  | none => sd.significantChanges

/-- The magnitude the classifier's band code receives. -/
def policyChangesVal (previousContent currentContent : List Char) : ℚ :=
  policyChangesOf (calculateSemanticDifference previousContent currentContent)

/-- The `changeType` strings assigned by the detector. -/
inductive ChangeType where
  | NEW_POLICY
  | CRITICAL_POLICY_IN_STRUCTURAL
  | STRUCTURAL_ONLY
  | MAJOR_ADDITION
  | MODERATE_CHANGE
  | MINOR_MODIFICATION
  | CRITICAL_MINOR_CHANGE
  | FORMATTING_ONLY
  deriving Repr, DecidableEq

/-- The classification outcome of `analyzeChanges`: the final `changeType`
and the `skipNotification` flag (JS `undefined` is falsy, hence `false`). -/
structure ChangesResult where
  changeType : ChangeType
  skipNotification : Bool
  deriving Repr, DecidableEq

/-- The magnitude-band tail of `analyzeChanges` (the code after the
structural check). -/
def classifyByMagnitude (pc : ℚ) (previousContent currentContent : List Char) :
    ChangesResult :=
  if 15 < pc then ⟨.MAJOR_ADDITION, false⟩
  else if 8 < pc then ⟨.MODERATE_CHANGE, false⟩
  else if 3 < pc then ⟨.MINOR_MODIFICATION, false⟩
  else if containsCriticalPolicyChanges previousContent currentContent then
    ⟨.CRITICAL_MINOR_CHANGE, false⟩
  else ⟨.FORMATTING_ONLY, true⟩

/-- `ChangeDetector.analyzeChanges` on the two content strings.  In the
structural-and-critical branch the source sets
`CRITICAL_POLICY_IN_STRUCTURAL` but then falls through into the band code,
which overwrites `changeType` in every branch, so the fall-through is the
band classification itself. -/
def analyzeChangesModel (previousContent currentContent : List Char) :
    ChangesResult :=
  let sd := calculateSemanticDifference previousContent currentContent
  let pc := policyChangesOf sd
  if sd.isStructuralOnly then
    if containsCriticalPolicyChanges previousContent currentContent then
      classifyByMagnitude pc previousContent currentContent
    else ⟨.STRUCTURAL_ONLY, true⟩
  else classifyByMagnitude pc previousContent currentContent

/-- A stored snapshot; `content` is `none` when the JS value is `null` or
not a string. -/
structure Snapshot where
  url : String
  title : String
  content : Option String
  contentHash : String
  deriving Repr, DecidableEq

/-- The result record of `detectChanges`. -/
structure DetectResult where
  isNew : Bool
  hasChanges : Bool
  changes : Option ChangesResult
  deriving Repr, DecidableEq

/-- The `TypeError` raised when `.replace` is called on a non-string. -/
def contentTypeError : String := "TypeError: content.replace is not a function"

/-- Reading a content field: JS throws a `TypeError` when the value is not
a string. -/
def getContentString : Option String → Except String (List Char)
  | none => .error contentTypeError
  | some s => .ok s.data

/-- `analyzeChanges` lifted over possibly-null contents: the source
normalizes the previous content first, then the current one, and any
non-string content raises before any classification happens. -/
def analyzeChangesE (previousContent currentContent : Option String) :
    Except String ChangesResult := do
  let p ← getContentString previousContent
  let c ← getContentString currentContent
  return analyzeChangesModel p c

/-- `ChangeDetector.detectChanges` as a pure function of the previous
snapshot (already loaded, `none` when absent) and the current data. -/
def detectChangesE (previous : Option Snapshot) (current : Snapshot) :
    Except String DetectResult :=
  match previous with
  | none => .ok ⟨true, false, some ⟨.NEW_POLICY, false⟩⟩
  | some prev =>
    if prev.contentHash = current.contentHash then
      .ok ⟨false, false, none⟩
    else do
      let changes ← analyzeChangesE prev.content current.content
      if changes.skipNotification then
        return ⟨false, false, none⟩
      else
        return ⟨false, true, some changes⟩

/-! Definitions written from the spec's own words, used to compare the
source functions against the specified ones. -/

/-- From the spec's words: Jaccard similarity `card of intersection over
card of union` of two finite word sets, as an exact rational (`mkRat`
yields 0 on an empty union, matching the source's zero-guard). -/
def jaccardQ (A B : Finset (List Char)) : ℚ :=
  mkRat ((A ∩ B).card : Int) ((A ∪ B).card)

/-- From the spec's words (§4.2): the set of words of length greater
than 2 of a stripped core. -/
def coreWordSet (content : List Char) : Finset (List Char) :=
  (wordsFilter 2 (extractPolicyCore content)).toFinset

/-- From the spec's words (§4.2): the structural Jaccard similarity of the
two stripped cores. -/
def specStructuralJaccard (p c : List Char) : ℚ :=
  jaccardQ (coreWordSet p) (coreWordSet c)

/-- From the spec's words (§4.4): the set of words of length greater
than 3 of a lower-cased sentence. -/
def simWordSet (s : List Char) : Finset (List Char) :=
  (wordsFilter 3 (jsToLowerL s)).toFinset

/-- From the spec's words (§4.4): the plain unigram word Jaccard of two
sentences. -/
def specUnigramJaccard (s1 s2 : List Char) : ℚ :=
  jaccardQ (simWordSet s1) (simWordSet s2)

/-! Concrete inputs used by the counterexamples and witnesses below. -/

/-- A run of `n` full stops (no whitespace, no word characters, no policy
vocabulary), so every boilerplate pattern fails fast and the only signal
left is the length difference. -/
def dotRun (n : Nat) : List Char := List.replicate n '.'

/-- A single full stop. -/
def exDot : List Char := ['.']

/-- 162 dots: against `exDot` the normalized length difference is 161, so
the falsy fallback gives magnitude 161 / 20 = 8.05, inside (8, 10]. -/
def exC1prev : List Char := dotRun 162

/-- 120 dots: against `exC2curr` the length difference is 84, giving
magnitude 4.2, inside (3, 5]. -/
def exC2prev : List Char := dotRun 120

/-- One sentence containing the critical term `gambling` but no policy
keyword, so the critical scanner fires while the policy corpus is empty. -/
def exC2curr : List Char := "gambling helps nobody anyway tonight".data

/-- 25 dots: against `exDot` the length difference is 24, magnitude 1.2. -/
def exC4prev : List Char := dotRun 25

/-- The empty content. -/
def exEmpty : List Char := []

/-- One policy-relevant sentence (contains `must`, longer than 20
characters), giving policy-sentence count 1 against empty content. -/
def exMust : List Char := "you must bring umbrellas today".data

/-- Nine distinct words, all longer than 2 characters. -/
def exC5prev : List Char :=
  "alpha beta gamma delta epsilon zeta eta theta iota".data

/-- The same words with the last removed: core Jaccard 8 / 9 = 0.888,
between the source's 0.85 and the spec's 0.90. -/
def exC5curr : List Char := "alpha beta gamma delta epsilon zeta eta theta".data

/-- An inner `visit_id=q` fragment whose removal leaves a double space. -/
def exC8 : List Char := "a visit_id=q b".data

/-- A content the normalizer leaves unchanged. -/
def exHello : List Char := "hello there".data

/-- A keyword-free sentence of words longer than 3 characters. -/
def exC10prev : List Char := "these things belong together with bananas".data

/-- The same sentence with the 2-character policy keyword `ad` inserted:
the word sets of words longer than 3 characters are unchanged, yet the
sentence becomes policy-relevant while its previous version is not. -/
def exC10curr : List Char :=
  "these things belong together with ad bananas".data

/-- A sentence with a nonempty word set, compared with itself. -/
def exTriple : List Char := "hello there world".data

/-- A previous snapshot with string content. -/
def exSnapPrev : Snapshot := ⟨"url", "title", some ".", "h1"⟩

/-- A current snapshot whose content is JS `null`. -/
def exSnapCurrNull : Snapshot := ⟨"url", "title", none, "h2"⟩

/-- Snapshot carrying `exC1prev` as content. -/
def exC1prevSnap : Snapshot :=
  ⟨"url", "title", some (String.mk exC1prev), "h1"⟩

/-- Snapshot carrying `exDot` as content. -/
def exC1currSnap : Snapshot := ⟨"url", "title", some (String.mk exDot), "h2"⟩

/-! Helper lemmas bridging the source's deduplicated-list counting and the
spec's finite-set cardinalities. -/

theorem dedup_toFinset (l : List (List Char)) : l.dedup.toFinset = l.toFinset := by
  ext x
  simp [List.mem_dedup]

theorem inter_filter_length (A B : List (List Char)) :
    ((A.dedup.filter (fun w => w ∈ B.dedup)).length) =
      (A.toFinset ∩ B.toFinset).card := by
  have hnd : (A.dedup.filter (fun w => w ∈ B.dedup)).Nodup :=
    (List.nodup_dedup A).filter _
  rw [← List.toFinset_card_of_nodup hnd, List.toFinset_filter]
  congr 1
  rw [dedup_toFinset]
  rw [show (A.toFinset.filter fun w => (w ∈ B.dedup : Bool) = true) =
      A.toFinset.filter (fun w => w ∈ B.toFinset) from ?_]
  · exact Finset.filter_mem_eq_inter
  · apply Finset.filter_congr
    intro x _
    simp [List.mem_dedup]

theorem union_dedup_length (A B : List (List Char)) :
    (((A.dedup ++ B.dedup).dedup).length) = (A.toFinset ∪ B.toFinset).card := by
  rw [← List.card_toFinset, List.toFinset_append, dedup_toFinset, dedup_toFinset]

theorem similarity_eq_jaccard (A B : List (List Char)) :
    (if 0 < ((A.dedup ++ B.dedup).dedup).length then
        mkRat ((A.dedup.filter (fun w => w ∈ B.dedup)).length)
          ((A.dedup ++ B.dedup).dedup).length
      else 0) = jaccardQ A.toFinset B.toFinset := by
  rw [jaccardQ, inter_filter_length, union_dedup_length]
  by_cases h : 0 < (A.toFinset ∪ B.toFinset).card
  · rw [if_pos h]
  · rw [if_neg h]
    have h0 : (A.toFinset ∪ B.toFinset).card = 0 := by omega
    rw [h0, Rat.mkRat_zero]

/-! Helper lemmas about `jsTrimL` and `jsToLowerL`. -/

theorem toNat_ofNat_valid {n : Nat} (h : n < 55296) :
    (Char.ofNat n).toNat = n := by
  rw [Char.ofNat, dif_pos (Or.inl h)]
  simp [Char.ofNatAux, Char.toNat, UInt32.toNat]

theorem lowerChar_of_not {d : Char} (h : ¬(65 ≤ d.toNat ∧ d.toNat ≤ 90)) :
    lowerChar d = d := by
  unfold lowerChar
  rw [if_neg h]

theorem lowerChar_toNat_of_upper {c : Char} (h : 65 ≤ c.toNat ∧ c.toNat ≤ 90) :
    (lowerChar c).toNat = c.toNat + 32 := by
  unfold lowerChar
  rw [if_pos h]
  exact toNat_ofNat_valid (by omega)

theorem lowerChar_idem (c : Char) : lowerChar (lowerChar c) = lowerChar c := by
  by_cases h : 65 ≤ c.toNat ∧ c.toNat ≤ 90
  · have ht := lowerChar_toNat_of_upper h
    exact lowerChar_of_not (by omega)
  · rw [lowerChar_of_not h, lowerChar_of_not h]

theorem isWs_lowerChar (c : Char) : isWs (lowerChar c) = isWs c := by
  by_cases h : 65 ≤ c.toNat ∧ c.toNat ≤ 90
  · have ht := lowerChar_toNat_of_upper h
    have h1 : isWs (lowerChar c) = false := by
      simp only [isWs, ht, Bool.or_eq_false_iff, decide_eq_false_iff_not]
      omega
    have h2 : isWs c = false := by
      simp only [isWs, Bool.or_eq_false_iff, decide_eq_false_iff_not]
      omega
    rw [h1, h2]
  · rw [lowerChar_of_not h]

theorem jsToLowerL_idem (s : List Char) :
    jsToLowerL (jsToLowerL s) = jsToLowerL s := by
  unfold jsToLowerL
  rw [List.map_map]
  exact List.map_congr_left (fun c _ => lowerChar_idem c)

theorem jsTrimL_eq_rdrop (s : List Char) :
    jsTrimL s = List.rdropWhile isWs (List.dropWhile isWs s) := rfl

theorem dropWhile_rdropWhile (p : Char → Bool) (t : List Char) :
    List.dropWhile p (List.rdropWhile p (List.dropWhile p t)) =
      List.rdropWhile p (List.dropWhile p t) := by
  rw [List.dropWhile_eq_self_iff]
  intro hl
  have hpre := List.rdropWhile_prefix p (List.dropWhile p t)
  have hlen : 0 < (List.dropWhile p t).length :=
    lt_of_lt_of_le hl hpre.length_le
  have hget := List.IsPrefix.getElem hpre (n := 0) hl
  simp only [List.get_eq_getElem, hget]
  have := List.dropWhile_get_zero_not p t hlen
  simpa [List.get_eq_getElem] using this

theorem jsTrimL_idem (s : List Char) : jsTrimL (jsTrimL s) = jsTrimL s := by
  rw [jsTrimL_eq_rdrop, jsTrimL_eq_rdrop, dropWhile_rdropWhile,
    List.rdropWhile_idempotent]

theorem jsTrimL_toLower (s : List Char) :
    jsTrimL (jsToLowerL s) = jsToLowerL (jsTrimL s) := by
  have hfun : (isWs ∘ lowerChar) = isWs := funext isWs_lowerChar
  have hdrop : ∀ l : List Char,
      List.dropWhile isWs (l.map lowerChar) =
        (List.dropWhile isWs l).map lowerChar := by
    intro l
    rw [List.dropWhile_map, hfun]
  unfold jsTrimL jsToLowerL
  rw [hdrop, ← List.map_reverse, hdrop, ← List.map_reverse]

/-- The structural flag of the semantic diff is false whenever
`isOnlyStructuralChange` is. -/
theorem sd_structural_false (p c : List Char)
    (hns : isOnlyStructuralChange p c = false) :
    (calculateSemanticDifference p c).isStructuralOnly = false := by
  unfold calculateSemanticDifference
  rw [hns]
  simp only [Bool.false_eq_true, if_false]
  split_ifs <;> rfl

/-- With the structural branch excluded, `analyzeChanges` is exactly the
band classification of the magnitude. -/
theorem analyze_eq_classify (p c : List Char)
    (hns : isOnlyStructuralChange p c = false) :
    analyzeChangesModel p c =
      classifyByMagnitude (policyChangesVal p c) p c := by
  simp only [analyzeChangesModel, policyChangesVal]
  rw [sd_structural_false p c hns]
  simp

/-! The claim theorems. -/

/-- C9: assessing a snapshot against itself (identical previous and current
snapshot, hence identical content hash) always yields `hasChanges = false`
(the hash pre-check returns the no-change result before any analysis). -/
theorem assess_self_no_changes (s : Snapshot) :
    detectChangesE (some s) s = .ok ⟨false, false, none⟩ := by
  simp [detectChangesE]

/-- C3 (amended): when the current snapshot's content is `null` (not a
string), the classifier does not degrade to an empty string: the
`TypeError` raised by `.replace` propagates out of `detectChanges`
unhandled, so no `ChangeAssessment` is returned at all. -/
theorem null_content_propagates_error (prev cur : Snapshot)
    (hh : prev.contentHash ≠ cur.contentHash) (hc : cur.content = none) :
    detectChangesE (some prev) cur = .error contentTypeError := by
  have ha : analyzeChangesE prev.content cur.content = .error contentTypeError := by
    rw [hc]
    cases prev.content <;> rfl
  simp only [detectChangesE]
  rw [if_neg hh, ha]
  rfl

/-- C6 (amended): when both stripped cores reduce to empty token sets the
structural detector computes similarity 0 (the zero-guard of the union),
and 0 does not exceed the 0.85 threshold, so the diff is classified as NOT
structural-only. -/
theorem empty_union_not_structural (p c : List Char)
    (hp : coreWords p = []) (hc : coreWords c = []) :
    isOnlyStructuralChange p c = false := by
  simp only [isOnlyStructuralChange, hp, hc]
  rfl

/-- C5 (amended): the structural detector tokenizes each stripped core into
the set of words of length greater than 2 and classifies the diff as
structural-only exactly when the Jaccard similarity of the two word sets
exceeds 0.85 (not the spec's 0.90). -/
theorem structural_iff_jaccard (p c : List Char) :
    isOnlyStructuralChange p c = true ↔
      mkRat 85 100 < specStructuralJaccard p c := by
  unfold isOnlyStructuralChange specStructuralJaccard coreWordSet coreWords
  rw [decide_eq_true_eq, similarity_eq_jaccard]

/-- C7 (amended): the sentence similarity function used by the differ is
the plain unigram Jaccard over words longer than 3 characters; it has no
substring rule and no bigram component (those exist only in the email
renderer, which the differ does not call). -/
theorem sentence_similarity_unigram (s1 s2 : List Char) :
    sentenceSimilarity s1 s2 = specUnigramJaccard s1 s2 := by
  unfold sentenceSimilarity specUnigramJaccard simWordSet simWords
  exact similarity_eq_jaccard _ _

/-- C8 (amended): the normalizer is idempotent exactly on inputs whose
normalized form is stable under the collapse-and-removal kernel; the final
trim-and-lowercase stages are always stable.  (It is not idempotent in
general: a removal that deletes an inner segment leaves a double space
that only a second pass collapses, see the counterexample.) -/
theorem normalize_idempotent_on_stable (x : List Char)
    (h1 : normRemovals (collapseWs (normalizePolicyContent x)) =
      collapseWs (normalizePolicyContent x))
    (h2 : collapseWs (normalizePolicyContent x) = normalizePolicyContent x) :
    normalizePolicyContent (normalizePolicyContent x) =
      normalizePolicyContent x := by
  have key : ∀ R : List Char,
      jsToLowerL (jsTrimL (jsToLowerL (jsTrimL R))) = jsToLowerL (jsTrimL R) := by
    intro R
    rw [jsTrimL_toLower, jsTrimL_idem, jsToLowerL_idem]
  calc
    normalizePolicyContent (normalizePolicyContent x)
        = jsToLowerL (jsTrimL (normRemovals (collapseWs
            (normalizePolicyContent x)))) := rfl
    _ = jsToLowerL (jsTrimL (normalizePolicyContent x)) := by rw [h1, h2]
    _ = jsToLowerL (jsTrimL (jsToLowerL (jsTrimL
          (normRemovals (collapseWs x))))) := rfl
    _ = jsToLowerL (jsTrimL (normRemovals (collapseWs x))) := key _
    _ = normalizePolicyContent x := rfl

/-- C10 (amended): two sentences whose sets of words longer than 3
characters are equal score similarity exactly 1 when the set is nonempty
and 0 when it is empty.  (The further claim that such pairs are never
reported by the differ is false: corpus membership is decided by keyword
substrings that include words of at most 3 characters, see the
counterexample.) -/
theorem equal_word_sets_similarity (a b : List Char)
    (h : simWordSet a = simWordSet b) :
    ((simWordSet a).Nonempty → sentenceSimilarity a b = 1) ∧
    (simWordSet a = ∅ → sentenceSimilarity a b = 0) := by
  have he : sentenceSimilarity a b = jaccardQ (simWordSet a) (simWordSet b) := by
    unfold sentenceSimilarity jaccardQ simWordSet simWords
    exact similarity_eq_jaccard _ _
  rw [he, jaccardQ, ← h, Finset.inter_self, Finset.union_self]
  constructor
  · intro hne
    have hcard : (simWordSet a).card ≠ 0 := by
      simpa [Finset.card_eq_zero] using Finset.nonempty_iff_ne_empty.mp hne
    rw [show (1 : ℚ) = mkRat 1 1 by decide,
      Rat.mkRat_eq_iff hcard one_ne_zero]
    simp
  · intro hemp
    rw [hemp]
    simp

/-- C1 (amended): for every comparison that reaches the magnitude step
(previous snapshot exists, hashes differ, not structural-only), the bands
of the source are `15 < M` giving MAJOR_ADDITION, `8 < M ≤ 15` giving
MODERATE_CHANGE and `3 < M ≤ 8` giving MINOR_MODIFICATION — not the
spec's 20/10/5 — and in every band the result notifies:
`skipNotification = false` and `detectChanges` reports `hasChanges = true`. -/
theorem classifier_bands (prev cur : Snapshot) (pc cc : String)
    (hp : prev.content = some pc) (hc : cur.content = some cc)
    (hh : prev.contentHash ≠ cur.contentHash)
    (hns : isOnlyStructuralChange pc.data cc.data = false) :
    ((15 : ℚ) < policyChangesVal pc.data cc.data →
      analyzeChangesModel pc.data cc.data = ⟨.MAJOR_ADDITION, false⟩) ∧
    ((8 : ℚ) < policyChangesVal pc.data cc.data ∧
        policyChangesVal pc.data cc.data ≤ 15 →
      analyzeChangesModel pc.data cc.data = ⟨.MODERATE_CHANGE, false⟩) ∧
    ((3 : ℚ) < policyChangesVal pc.data cc.data ∧
        policyChangesVal pc.data cc.data ≤ 8 →
      analyzeChangesModel pc.data cc.data = ⟨.MINOR_MODIFICATION, false⟩) ∧
    ((3 : ℚ) < policyChangesVal pc.data cc.data →
      detectChangesE (some prev) cur =
        .ok ⟨false, true, some (analyzeChangesModel pc.data cc.data)⟩) := by
  have hm := analyze_eq_classify pc.data cc.data hns
  refine ⟨?_, ?_, ?_, ?_⟩
  · intro h15
    rw [hm, classifyByMagnitude, if_pos h15]
  · rintro ⟨h8, h15⟩
    rw [hm, classifyByMagnitude, if_neg (by exact not_lt.mpr h15), if_pos h8]
  · rintro ⟨h3, h8⟩
    rw [hm, classifyByMagnitude, if_neg (by exact not_lt.mpr (by linarith)),
      if_neg (by exact not_lt.mpr h8), if_pos h3]
  · intro h3
    have hskip : (analyzeChangesModel pc.data cc.data).skipNotification = false := by
      rw [hm, classifyByMagnitude]
      split_ifs <;> rfl
    have ha : analyzeChangesE prev.content cur.content =
        .ok (analyzeChangesModel pc.data cc.data) := by
      rw [hp, hc]
      rfl
    have hb : ∀ (r : ChangesResult)
        (f : ChangesResult → Except String DetectResult),
        (Except.ok r >>= f) = f r := fun _ _ => rfl
    simp only [detectChangesE]
    rw [if_neg hh, ha, hb, hskip]
    rfl

/-- C2 (amended): the low-magnitude critical branch fires at `M ≤ 3`
(not the spec's `M ≤ 5`) and is unconditional: there is no secondary
`realPolicyChangeConfirmed` verifier and no STRUCTURAL_WITH_KEYWORDS tier.
With the critical scanner true the result is CRITICAL_MINOR_CHANGE
(notify); with it false, FORMATTING_ONLY (suppressed). -/
theorem low_magnitude_critical (p c : List Char)
    (hns : isOnlyStructuralChange p c = false)
    (hm : policyChangesVal p c ≤ 3) :
    (containsCriticalPolicyChanges p c = true →
      analyzeChangesModel p c = ⟨.CRITICAL_MINOR_CHANGE, false⟩) ∧
    (containsCriticalPolicyChanges p c = false →
      analyzeChangesModel p c = ⟨.FORMATTING_ONLY, true⟩) := by
  have he := analyze_eq_classify p c hns
  have h15 : ¬((15 : ℚ) < policyChangesVal p c) := by
    intro h
    linarith
  have h8 : ¬((8 : ℚ) < policyChangesVal p c) := by
    intro h
    linarith
  have h3 : ¬((3 : ℚ) < policyChangesVal p c) := by
    intro h
    linarith
  constructor
  · intro hcrit
    rw [he, classifyByMagnitude, if_neg h15, if_neg h8, if_neg h3, if_pos hcrit]
  · intro hcrit
    rw [he, classifyByMagnitude, if_neg h15, if_neg h8, if_neg h3,
      if_neg (by simp [hcrit])]

/-- C4 (amended): on the magnitude path the value fed into the bands
equals the count of added plus removed policy-relevant sentences whenever
that count is nonzero; when the count is zero the JS falsy fallback
(`policyWordDiff || significantChanges`) substitutes
`max(lengthDiff / 20, 0) = lengthDiff / 20`, so a character-length
difference can contribute to the magnitude. -/
theorem magnitude_count_or_length (p c : List Char)
    (hi : normalizePolicyContent p ≠ normalizePolicyContent c)
    (hns : isOnlyStructuralChange p c = false) :
    (calculatePolicySpecificDifference (normalizePolicyContent p)
        (normalizePolicyContent c) ≠ 0 →
      policyChangesVal p c =
        (calculatePolicySpecificDifference (normalizePolicyContent p)
          (normalizePolicyContent c) : ℚ)) ∧
    (calculatePolicySpecificDifference (normalizePolicyContent p)
        (normalizePolicyContent c) = 0 →
      policyChangesVal p c =
        mkRat (((normalizePolicyContent c).length : ℤ) -
          ((normalizePolicyContent p).length : ℤ)).natAbs 20) := by
  unfold policyChangesVal calculateSemanticDifference
  rw [hns]
  simp only [Bool.false_eq_true, if_false, if_neg hi]
  constructor
  · intro hcnt
    unfold policyChangesOf
    simp only [if_neg hcnt]
  · intro hcnt
    unfold policyChangesOf
    simp only [hcnt, if_pos, Nat.cast_zero]
    rw [max_eq_left]
    exact Rat.mkRat_nonneg (by omega) _

/-! Counterexamples refuting the claims as the spec states them, and
witnesses instantiating the amended theorems. -/

/-- C1 (counterexample): 162 dots against one dot give magnitude
161 / 20 = 8.05.  The magnitude step is reached (not structural-only) and
8.05 lies in the spec band `5 < M ≤ 10` that demands MINOR_MODIFICATION,
but the source classifies 8.05 as MODERATE_CHANGE (its band is `M > 8`). -/
theorem claimC1_bands_counterexample :
    ((5 : ℚ) < policyChangesVal exC1prev exDot ∧
      policyChangesVal exC1prev exDot ≤ 10) ∧
    isOnlyStructuralChange exC1prev exDot = false ∧
    analyzeChangesModel exC1prev exDot = ⟨.MODERATE_CHANGE, false⟩ := by
  have hM : policyChangesVal exC1prev exDot = mkRat 161 20 := by
    set_option maxRecDepth 100000 in decide
  have hns : isOnlyStructuralChange exC1prev exDot = false := by
    set_option maxRecDepth 100000 in decide
  refine ⟨⟨by rw [hM]; decide, by rw [hM]; decide⟩, hns, ?_⟩
  rw [analyze_eq_classify _ _ hns, hM]
  decide

/-- C1 (witness): at the same concrete pair all hypotheses of
`classifier_bands` hold, the 8-to-15 band applies, and `detectChanges`
reports the change. -/
theorem classifier_bands_witness :
    analyzeChangesModel exC1prev exDot = ⟨.MODERATE_CHANGE, false⟩ ∧
    detectChangesE (some exC1prevSnap) exC1currSnap =
      .ok ⟨false, true, some (analyzeChangesModel exC1prev exDot)⟩ := by
  have hM : policyChangesVal exC1prev exDot = mkRat 161 20 := by
    set_option maxRecDepth 100000 in decide
  have hns : isOnlyStructuralChange exC1prev exDot = false := by
    set_option maxRecDepth 100000 in decide
  have h := classifier_bands exC1prevSnap exC1currSnap
    (String.mk exC1prev) (String.mk exDot) rfl rfl (by decide) hns
  refine ⟨h.2.1 ⟨?_, ?_⟩, h.2.2.2 ?_⟩
  · show (8 : ℚ) < policyChangesVal exC1prev exDot
    rw [hM]
    decide
  · show policyChangesVal exC1prev exDot ≤ 15
    rw [hM]
    decide
  · show (3 : ℚ) < policyChangesVal exC1prev exDot
    rw [hM]
    decide

/-- C2 (counterexample): magnitude 4.2 is at most 5 and the critical
scanner fires (the added sentence contains `gambling`), yet the source
returns MINOR_MODIFICATION with notification on — neither the claimed
CRITICAL_MINOR_CHANGE nor a suppressed STRUCTURAL_WITH_KEYWORDS, a tier
that does not exist in the code. -/
theorem claimC2_verifier_counterexample :
    policyChangesVal exC2prev exC2curr = mkRat 21 5 ∧
    mkRat 21 5 ≤ (5 : ℚ) ∧
    containsCriticalPolicyChanges exC2prev exC2curr = true ∧
    analyzeChangesModel exC2prev exC2curr = ⟨.MINOR_MODIFICATION, false⟩ := by
  have hM : policyChangesVal exC2prev exC2curr = mkRat 21 5 := by
    set_option maxRecDepth 100000 in decide
  have hns : isOnlyStructuralChange exC2prev exC2curr = false := by
    set_option maxRecDepth 100000 in decide
  have hcrit : containsCriticalPolicyChanges exC2prev exC2curr = true := by
    set_option maxRecDepth 100000 in decide
  refine ⟨hM, by decide, hcrit, ?_⟩
  rw [analyze_eq_classify _ _ hns, hM]
  decide

/-- C2 (witness): 25 dots against one dot give magnitude 1.2 ≤ 3 on a
non-structural diff with no critical terms, and the amended theorem
yields FORMATTING_ONLY with notification suppressed. -/
theorem low_magnitude_critical_witness :
    analyzeChangesModel exC4prev exDot = ⟨.FORMATTING_ONLY, true⟩ := by
  have hM : policyChangesVal exC4prev exDot = mkRat 6 5 := by
    set_option maxRecDepth 100000 in decide
  have h := low_magnitude_critical exC4prev exDot
    (by set_option maxRecDepth 100000 in decide) (by rw [hM]; decide)
  exact h.2 (by set_option maxRecDepth 100000 in decide)

/-- C3 (counterexample): with a previous snapshot present, differing
hashes, and `null` current content, `detectChanges` surfaces the thrown
`TypeError` instead of any `ChangeAssessment` with `hasChanges = true`. -/
theorem claimC3_null_content_counterexample :
    detectChangesE (some exSnapPrev) exSnapCurrNull =
      .error contentTypeError := by
  rfl

/-- C3 (witness): the amended theorem applied at the same concrete pair. -/
theorem null_content_witness :
    detectChangesE (some exSnapPrev) exSnapCurrNull =
      .error contentTypeError :=
  null_content_propagates_error exSnapPrev exSnapCurrNull (by decide) rfl

/-- C4 (counterexample): 25 dots against one dot have zero added or
removed policy-relevant sentences, yet the magnitude fed to the bands is
24 / 20 = 1.2, not 0: the character-length difference contributed. -/
theorem claimC4_length_contribution_counterexample :
    calculatePolicySpecificDifference (normalizePolicyContent exC4prev)
      (normalizePolicyContent exDot) = 0 ∧
    policyChangesVal exC4prev exDot = mkRat 6 5 := by
  constructor
  · set_option maxRecDepth 100000 in decide
  · set_option maxRecDepth 100000 in decide

/-- C4 (witness): with one added policy-relevant sentence the magnitude
equals the sentence count exactly. -/
theorem magnitude_count_witness :
    policyChangesVal exEmpty exMust = (1 : ℚ) := by
  have hcnt : calculatePolicySpecificDifference
      (normalizePolicyContent exEmpty) (normalizePolicyContent exMust) = 1 := by
    set_option maxRecDepth 100000 in decide
  have h := magnitude_count_or_length exEmpty exMust
    (by set_option maxRecDepth 100000 in decide)
    (by set_option maxRecDepth 100000 in decide)
  rw [h.1 (by rw [hcnt]; decide), hcnt]
  decide

/-- C5 (counterexample): removing one of nine core words gives Jaccard
8 / 9 = 0.888, which does not exceed the spec threshold 0.90, yet the
source classifies the diff as structural-only (its threshold is 0.85). -/
theorem claimC5_threshold_counterexample :
    isOnlyStructuralChange exC5prev exC5curr = true ∧
    specStructuralJaccard exC5prev exC5curr = mkRat 8 9 ∧
    ¬(mkRat 9 10 < mkRat 8 9) := by
  refine ⟨?_, ?_, by decide⟩
  · set_option maxRecDepth 100000 in decide
  · set_option maxRecDepth 100000 in decide

/-- C6 (counterexample): on two empty contents both cores reduce to empty
token sets, and the source classifies the diff as NOT structural-only
(similarity is computed as 0), contradicting the claimed convention. -/
theorem claimC6_empty_union_counterexample :
    coreWords exEmpty = [] ∧
    isOnlyStructuralChange exEmpty exEmpty = false := by
  exact ⟨by decide, by decide⟩

/-- C6 (witness): the amended theorem applied to two empty contents. -/
theorem empty_union_witness :
    isOnlyStructuralChange exEmpty exEmpty = false :=
  empty_union_not_structural exEmpty exEmpty (by decide) (by decide)

/-- C7 (counterexample): `alpha` is a substring of `alpha beta`, so the
claimed rule demands similarity 0.95, but the source returns the plain
unigram Jaccard 1 / 2. -/
theorem claimC7_substring_counterexample :
    isSubstr (jsToLowerL "alpha".data) (jsToLowerL "alpha beta".data) = true ∧
    sentenceSimilarity "alpha".data "alpha beta".data = mkRat 1 2 ∧
    mkRat 1 2 ≠ mkRat 95 100 := by
  refine ⟨by decide, by decide, by decide⟩

/-- C8 (counterexample): removing the inner `visit_id=q` fragment leaves
a double space, so one more normalization pass changes the string again:
the normalizer is not idempotent. -/
theorem claimC8_idempotence_counterexample :
    normalizePolicyContent exC8 = "a  b".data ∧
    normalizePolicyContent (normalizePolicyContent exC8) = "a b".data ∧
    normalizePolicyContent (normalizePolicyContent exC8) ≠
      normalizePolicyContent exC8 := by
  refine ⟨by decide, by decide, by decide⟩

/-- C8 (witness): on a content without boilerplate or repeated whitespace
the stability hypotheses hold and normalization is idempotent. -/
theorem normalize_idempotent_witness :
    normalizePolicyContent (normalizePolicyContent exHello) =
      normalizePolicyContent exHello :=
  normalize_idempotent_on_stable exHello
    (by set_option maxRecDepth 100000 in decide)
    (by set_option maxRecDepth 100000 in decide)

/-- C10 (counterexample): inserting the 2-character keyword `ad` keeps the
sets of words longer than 3 characters equal (similarity 1), yet the
differ reports one added policy-relevant sentence, because the previous
version of the sentence is keyword-free and absent from the previous
corpus. -/
theorem claimC10_short_word_counterexample :
    simWordSet exC10prev = simWordSet exC10curr ∧
    (simWordSet exC10prev).Nonempty ∧
    sentenceSimilarity exC10prev exC10curr = 1 ∧
    calculatePolicySpecificDifference exC10prev exC10curr = 1 := by
  refine ⟨by decide, Finset.card_pos.mp (by decide), ?_, ?_⟩
  · set_option maxRecDepth 100000 in decide
  · set_option maxRecDepth 100000 in decide

/-- C10 (witness): a sentence with a nonempty word set compared with
itself has similarity exactly 1 by the amended theorem. -/
theorem equal_word_sets_witness :
    sentenceSimilarity exTriple exTriple = 1 :=
  (equal_word_sets_similarity exTriple exTriple rfl).1
    (Finset.card_pos.mp (by decide))

end PolicyMonitor
